import Mathlib

/-!
Verification of the BMC application core (`src/app/bmc_application.rs`).

The development shallowly embeds the Rust source: `u8` values become `Nat`
with bitwise operators (`&&&`, `|||`, `^^^`), 8-bit complement (Rust `!x` on
`u8`) becomes `255 ^^^ x`, and the effectful methods of `BmcApplication`
become explicit functions over a database state, the in-memory power bitmask
and an environment describing the outcome of every external call (pin
controller, persistence store, USB helper, progress channel), returning the
outcome together with the trace of performed external effects.
-/

namespace Bmc

/-- Bitwise complement on 8-bit values: Rust `!x` for `x : u8`. -/
def lnot8 (x : Nat) : Nat := 255 ^^^ x

/-- `BmcApplication::power_logic`, translated from the source:
determine the new `power_state` given `node_values`, `node_mask`,
`activated_nodes` and `current_state`. -/
def power_logic (node_values node_mask activated_nodes current_state : Nat) : Nat :=
  -- make sure that only activated nodes are allowed to be on
  let new_power_state := current_state &&& activated_nodes
  -- only set nodes that are allowed to be set. i.e. that are activated.
  let mask := node_mask &&& activated_nodes
  if mask ≠ 0 then (new_power_state &&& lnot8 mask) ||| (node_values &&& mask)
  else new_power_state

/-- Reference reconciliation function, written after the spec's steps 1-4:
mask the current state by the activated mask; compute the effective mask; if
it is nonzero overwrite those bits with the requested values. -/
def reconcile_spec (v m a s : Nat) : Nat :=
  if m &&& a = 0 then s &&& a
  else ((s &&& a) &&& lnot8 (m &&& a)) ||| (v &&& (m &&& a))

/-- `BmcApplication::need_atx_change`, translated from the source: returns
the new state of ATX power, `none` when no rail change is needed. -/
def need_atx_change (current_node_state next_node_state : Nat) : Option Bool :=
  if current_node_state = 0 ∧ next_node_state > 0 then
    some true
  else if current_node_state > 0 ∧ next_node_state = 0 then
    some false
  else
    none

/-- `NodeId`, modelled from the spec: one of a fixed small enumeration of
physical slots (the board has 4), convertible to a single-bit mask position.
The type lives in `middleware` which is outside the given source. -/
inductive NodeId
  | Node1
  | Node2
  | Node3
  | Node4
deriving DecidableEq

/-- Modelled from the spec: `node as u8` — the discriminant of the slot. -/
def NodeId.toNat : NodeId → Nat
  | .Node1 => 0
  | .Node2 => 1
  | .Node3 => 2
  | .Node4 => 3

/-- Modelled from the spec: every node identifier maps to exactly one nonzero
bit in a fixed-width bitmask. -/
def NodeId.to_bitfield (n : NodeId) : Nat := 1 <<< n.toNat

/-- `UsbMode`, modelled from the spec: per-node USB mode, host or device. -/
inductive UsbMode
  | Host
  | Device
deriving DecidableEq

/-- `UsbRoute`, modelled from the spec: BMC-internal route for flashing, or
the external USB-A port for host pass-through. -/
inductive UsbRoute
  | UsbA
  | BMC
deriving DecidableEq

/-- Failure reasons of the external calls made by `BmcApplication`; each
corresponds to one fallible collaborator operation (or, for the USB device
search, to the two documented discovery failures). -/
inductive PErr
  | dbGet
  | send
  | atx
  | led
  | powerPin
  | invalidNode
  | clearUsbBoot
  | selectUsb
  | setUsbBoot
  | setUsbRoute
  | setUsbModePin
  | getSerials
  | deviceNotFound
  | deviceAmbiguous
  | bootMsd
  | devicePath
  | writeImage
  | checksum
deriving DecidableEq

/-- `FlashStatus`, modelled from the spec and the source's uses: a tagged
variant `Idle | Progress {read_percent, est_minutes, est_seconds} | Error |
Done`. The type lives in `middleware::usbboot`, outside the given source. -/
inductive FlashStatus
  | Idle
  | Progress (readPercent estMinutes estSeconds : Nat)
  | Error (e : PErr)
  | Done
deriving DecidableEq

/-- A write to the persistent config store: key together with the value. -/
inductive DbWrite
  | activatedNodes (v : Nat)
  | usbNode (n : NodeId)
  | usbRoute (r : UsbRoute)
  | usbMode (v : Nat)
deriving DecidableEq

/-- An external effect performed by the application: a progress-channel send,
a config-store write, a pin-controller call, a USB-helper call, the front
panel LED write, or a settle delay. -/
inductive Event
  | progressSend (msg : String) (status : FlashStatus)
  | progressTrySend (status : FlashStatus)
  | dbSet (w : DbWrite)
  | pinSelectUsb (n : NodeId)
  | pinSetUsbRoute (r : UsbRoute)
  | pinSetUsbBoot (n : NodeId)
  | pinClearUsbBoot
  | pinSetUsbMode (n : NodeId) (m : UsbMode) (prev : Nat)
  | pinSetAtxPower (isOn : Bool)
  | ledWrite (isOn : Bool)
  | pinSetPowerNode (oldState newState : Nat)
  | usbGetSerials
  | usbBootMsd (n : NodeId)
  | usbGetDevicePath
  | usbWriteImage
  | usbVerifyChecksum
  | sleepMs (ms : Nat)
deriving DecidableEq

/-- The persistent config store: the four keys used by the application.
`none` models an absent key (a failing typed `get`). -/
structure Db where
  activatedNodes : Option Nat
  usbNode : Option NodeId
  usbRoute : Option UsbRoute
  usbMode : Option Nat
deriving DecidableEq

/-- Outcomes of the external calls, fixed up front: whether each
pin-controller / USB-helper / channel operation succeeds, and the values the
USB helper returns. Store writes are modelled as always succeeding. -/
structure Env where
  sendOk : Bool
  trySendOk : Bool
  atxOk : Bool
  ledOk : Bool
  setPowerNodeOk : Bool
  clearUsbBootOk : Bool
  selectUsbOk : Bool
  setUsbBootOk : Bool
  setUsbRouteOk : Bool
  setUsbModePinOk : Bool
  usbModeF : NodeId → UsbMode → Nat → Nat
  getSerialsOk : Bool
  serialCount : Nat
  bootMsdOk : Bool
  devicePathOk : Bool
  devicePath : String
  writeOk : Bool
  imgLen : Nat
  imgChecksum : Nat
  checksumOk : Bool

/-- Result of a fallible operation: success, a propagated error (Rust `?`),
or a panic (Rust `unwrap`). -/
inductive Outcome (α : Type)
  | ok (a : α)
  | err (e : PErr)
  | panicked
deriving DecidableEq

/-- The result of running an effectful method: its outcome, the config store
and in-memory power bitmask afterwards, and the performed external effects in
order. -/
structure PRes (α : Type) where
  res : Outcome α
  db : Db
  power : Nat
  events : List Event
deriving DecidableEq

/-- Sequential composition: run the continuation only on success, threading
the store and power state and concatenating the effect traces. -/
def pbind {α β : Type} (x : PRes α) (f : α → Db → Nat → PRes β) : PRes β :=
  match x.res with
  | .ok a =>
    let y := f a x.db x.power
    { y with events := x.events ++ y.events }
  | .err e => { res := .err e, db := x.db, power := x.power, events := x.events }
  | .panicked => { res := .panicked, db := x.db, power := x.power, events := x.events }

/-- An external (pin-controller or USB-helper) call that performs effect `ev`
when the environment lets it succeed and otherwise propagates error `e`. -/
def extOp (success : Bool) (e : PErr) (ev : Event) (db : Db) (power : Nat) : PRes Unit :=
  if success then ⟨.ok (), db, power, [ev]⟩ else ⟨.err e, db, power, []⟩

/-- An awaited `progress_sender.send(...)`. -/
def sendP (env : Env) (msg : String) (status : FlashStatus) (db : Db) (power : Nat) :
    PRes Unit :=
  if env.sendOk then ⟨.ok (), db, power, [.progressSend msg status]⟩
  else ⟨.err .send, db, power, []⟩

/-- A `sleep(...)` settle delay. -/
def sleepP (ms : Nat) (db : Db) (power : Nat) : PRes Unit :=
  ⟨.ok (), db, power, [.sleepMs ms]⟩

/-- `BmcApplication::power_node`, translated from the source: read the
activated mask, reconcile, short-circuit when nothing changes, toggle the ATX
rail and the status LED when needed, issue the per-node pin write, and only
then update the in-memory bitmask. -/
def power_node (env : Env) (nodes mask : Nat) (db : Db) (power : Nat) : PRes Unit :=
  match db.activatedNodes with
  | none => ⟨.err .dbGet, db, power, []⟩
  | some activated =>
    let new_power_state := power_logic nodes mask activated power
    if new_power_state = power then ⟨.ok (), db, power, []⟩
    else
      match need_atx_change power new_power_state with
      | some isOn =>
        if env.atxOk then
          if env.ledOk then
            if env.setPowerNodeOk then
              ⟨.ok (), db, new_power_state,
                [.pinSetAtxPower isOn, .ledWrite isOn, .pinSetPowerNode power new_power_state]⟩
            else ⟨.err .powerPin, db, power, [.pinSetAtxPower isOn, .ledWrite isOn]⟩
          else ⟨.err .led, db, power, [.pinSetAtxPower isOn]⟩
        else ⟨.err .atx, db, power, []⟩
      | none =>
        if env.setPowerNodeOk then
          ⟨.ok (), db, new_power_state, [.pinSetPowerNode power new_power_state]⟩
        else ⟨.err .powerPin, db, power, []⟩

/-- `BmcApplication::activate_slot`, translated from the source: update the
target node's bit in the persisted activation mask, then reflect the change
in actual power state via `power_node`. -/
def activate_slot (env : Env) (node : NodeId) (turnOn : Bool) (db : Db) (power : Nat) :
    PRes Unit :=
  if node.to_bitfield = 0 then ⟨.err .invalidNode, db, power, []⟩
  else
    let mask := node.to_bitfield
    let bits := if turnOn then node.to_bitfield else lnot8 node.to_bitfield
    match db.activatedNodes with
    | none => ⟨.err .dbGet, db, power, []⟩
    | some state =>
      let state2 := (state &&& lnot8 mask) ||| (bits &&& mask)
      pbind ⟨.ok (), { db with activatedNodes := some state2 }, power,
          [.dbSet (.activatedNodes state2)]⟩
        (fun _ db pw => power_node env bits mask db pw)

/-- `BmcApplication::toggle_power_states`, translated from the source: on an
all-zero bitmask force a full activation reset; on a reset write `0b1111` or
`0b0000` to the activated-nodes key depending on the current value; then
request the inverted bitmask for all four nodes. -/
def toggle_power_states (env : Env) (reset_activation : Bool) (db : Db) (power : Nat) :
    PRes Unit :=
  let reset := if power = 0 then true else reset_activation
  let node_values := power
  let step1 : PRes Unit :=
    if reset then
      let value := if node_values < 15 then 0b1111 else 0b0000
      ⟨.ok (), { db with activatedNodes := some value }, power,
        [.dbSet (.activatedNodes value)]⟩
    else ⟨.ok (), db, power, []⟩
  pbind step1 (fun _ db pw => power_node env (lnot8 node_values) 0b1111 db pw)

/-- `BmcApplication::set_usb_mode`, translated from the source: read the
previous mode mask (defaulting to `0b1111`), apply the pin change, persist
the returned new mask. -/
def set_usb_mode (env : Env) (node : NodeId) (mode : UsbMode) (db : Db) (power : Nat) :
    PRes Unit :=
  let prev_mode := db.usbMode.getD 0b1111
  if env.setUsbModePinOk then
    let new_mode := env.usbModeF node mode prev_mode
    ⟨.ok (), { db with usbMode := some new_mode }, power,
      [.pinSetUsbMode node mode prev_mode, .dbSet (.usbMode new_mode)]⟩
  else ⟨.err .setUsbModePin, db, power, []⟩

/-- `BmcApplication::usb_mode`, translated from the source: select the mux to
the node and persist it, force the route to USB-A and persist it, switch the
node's USB mode, then set or clear the RPIBOOT strap pins depending on the
requested mode. -/
def usb_mode (env : Env) (mode : UsbMode) (node : NodeId) (db : Db) (power : Nat) :
    PRes Unit :=
  pbind (extOp env.selectUsbOk .selectUsb (.pinSelectUsb node) db power) (fun _ db pw =>
  pbind ⟨.ok (), { db with usbNode := some node }, pw, [.dbSet (.usbNode node)]⟩
    (fun _ db pw =>
  pbind (extOp env.setUsbRouteOk .setUsbRoute (.pinSetUsbRoute .UsbA) db pw) (fun _ db pw =>
  pbind ⟨.ok (), { db with usbRoute := some .UsbA }, pw, [.dbSet (.usbRoute .UsbA)]⟩
    (fun _ db pw =>
  pbind (set_usb_mode env node mode db pw) (fun _ db pw =>
  match mode with
  | .Host => extOp env.clearUsbBootOk .clearUsbBoot .pinClearUsbBoot db pw
  | .Device => extOp env.setUsbBootOk .setUsbBoot (.pinSetUsbBoot node) db pw)))))

/-- `u64::MAX`, used for the indeterminate-progress estimates. -/
def u64Max : Nat := 18446744073709551615

/-- The progress status used for every awaited send of `set_node_in_msd`:
`FlashStatus::Progress` with zero percent and indeterminate estimates. -/
def statusProgress0 : FlashStatus := .Progress 0 u64Max u64Max

/-- The formatted message of the first progress event of `set_node_in_msd`. -/
def msgPoweringOff (node : NodeId) : String :=
  "Powering off node " ++ Nat.repr (node.toNat + 1) ++ "..."

/-- Progress message sent after the USB prerequisites are toggled. -/
def msgPrereq : String := "Prerequisite settings toggled, powering on..."

/-- Progress message sent before USB device discovery. -/
def msgCheckUsb : String := "Checking for presence of a USB device..."

/-- Progress message sent before the boot-to-mass-storage handshake. -/
def msgReboot : String := "Rebooting as a USB mass storage device..."

/-- Progress message sent before polling for the block device file. -/
def msgCheckFile : String := "Checking for presence of a device file..."

/-- Formatted message of the write step of `flash_node`. -/
def msgWriting (imagePath devicePath : String) : String :=
  "Writing " ++ imagePath ++ " to " ++ devicePath

/-- Progress message of the checksum step of `flash_node`. -/
def msgVerifying : String := "Verifying checksum..."

/-- Progress message sent after a successful flash. -/
def msgRestarting : String := "Flashing successful, restarting device..."

/-- Final progress message of `flash_node`. -/
def msgDone : String := "Done"

/-- `usbboot::get_serials_for_vid_pid` over the supported-device list: an
external enumeration returning the number of matching devices. -/
def getSerialsP (env : Env) (db : Db) (power : Nat) : PRes Nat :=
  if env.getSerialsOk then ⟨.ok env.serialCount, db, power, [.usbGetSerials]⟩
  else ⟨.err .getSerials, db, power, []⟩

/-- `usbboot::verify_one_device` combined with the source's
`map_err(|e| progress_sender.try_send(...).unwrap(); e)`: exactly one match
succeeds silently; otherwise the error is sent over the non-blocking channel
— and a failing `try_send` is unwrapped, i.e. panics. -/
def verifyOneP (env : Env) (numMatches : Nat) (db : Db) (power : Nat) : PRes Unit :=
  if numMatches = 1 then ⟨.ok (), db, power, []⟩
  else
    let e := if numMatches = 0 then PErr.deviceNotFound else PErr.deviceAmbiguous
    if env.trySendOk then ⟨.err e, db, power, [.progressTrySend (.Error e)]⟩
    else ⟨.panicked, db, power, []⟩

/-- `usbboot::get_device_path` filtered by the supported disk prefixes. -/
def getDevicePathP (env : Env) (db : Db) (power : Nat) : PRes String :=
  if env.devicePathOk then ⟨.ok env.devicePath, db, power, [.usbGetDevicePath]⟩
  else ⟨.err .devicePath, db, power, []⟩

/-- `usbboot::write_to_device`: bulk image write returning length and
checksum. -/
def writeToDeviceP (env : Env) (db : Db) (power : Nat) : PRes (Nat × Nat) :=
  if env.writeOk then ⟨.ok (env.imgLen, env.imgChecksum), db, power, [.usbWriteImage]⟩
  else ⟨.err .writeImage, db, power, []⟩

/-- `BmcApplication::set_node_in_msd`, translated from the source: the
prerequisite sequence that reboots a node into USB mass-storage mode and
resolves its block device path. -/
def set_node_in_msd (env : Env) (node : NodeId) (router : UsbRoute) (db : Db)
    (power : Nat) : PRes String :=
  pbind (sendP env (msgPoweringOff node) statusProgress0 db power) (fun _ db pw =>
  pbind (activate_slot env node false db pw) (fun _ db pw =>
  pbind (extOp env.clearUsbBootOk .clearUsbBoot .pinClearUsbBoot db pw) (fun _ db pw =>
  pbind (sleepP 500 db pw) (fun _ db pw =>
  pbind (extOp env.selectUsbOk .selectUsb (.pinSelectUsb node) db pw) (fun _ db pw =>
  pbind (extOp env.setUsbBootOk .setUsbBoot (.pinSetUsbBoot node) db pw) (fun _ db pw =>
  pbind (extOp env.setUsbRouteOk .setUsbRoute (.pinSetUsbRoute router) db pw) (fun _ db pw =>
  pbind (set_usb_mode env node .Device db pw) (fun _ db pw =>
  pbind (sendP env msgPrereq statusProgress0 db pw) (fun _ db pw =>
  pbind (activate_slot env node true db pw) (fun _ db pw =>
  pbind (sleepP 2000 db pw) (fun _ db pw =>
  pbind (sendP env msgCheckUsb statusProgress0 db pw) (fun _ db pw =>
  pbind (getSerialsP env db pw) (fun numMatches db pw =>
  pbind (verifyOneP env numMatches db pw) (fun _ db pw =>
  pbind (sendP env msgReboot statusProgress0 db pw) (fun _ db pw =>
  pbind (extOp env.bootMsdOk .bootMsd (.usbBootMsd node) db pw) (fun _ db pw =>
  pbind (sleepP 3000 db pw) (fun _ db pw =>
  pbind (sendP env msgCheckFile statusProgress0 db pw) (fun _ db pw =>
  getDevicePathP env db pw))))))))))))))))))

/-- `BmcApplication::flash_node`, translated from the source: run
`set_node_in_msd` with the BMC-internal route, write and verify the image,
then restore the node to normal boot. -/
def flash_node (env : Env) (node : NodeId) (imagePath : String) (db : Db)
    (power : Nat) : PRes Unit :=
  pbind (set_node_in_msd env node .BMC db power) (fun device_path db pw =>
  pbind (sendP env (msgWriting imagePath device_path) .Idle db pw) (fun _ db pw =>
  pbind (writeToDeviceP env db pw) (fun _ db pw =>
  pbind (sendP env msgVerifying .Idle db pw) (fun _ db pw =>
  pbind (extOp env.checksumOk .checksum .usbVerifyChecksum db pw) (fun _ db pw =>
  pbind (sendP env msgRestarting .Idle db pw) (fun _ db pw =>
  pbind (activate_slot env node false db pw) (fun _ db pw =>
  pbind (usb_mode env .Host node db pw) (fun _ db pw =>
  pbind (sleepP 500 db pw) (fun _ db pw =>
  pbind (activate_slot env node true db pw) (fun _ db pw =>
  sendP env msgDone .Idle db pw))))))))))

/-- True on a progress event that carries an `Error` status. -/
def isErrorPublish : Event → Bool
  | .progressSend _ (.Error _) => true
  | .progressTrySend (.Error _) => true
  | _ => false

/-- True on a persist of the selected-USB-node key. -/
def isUsbNodePersist : Event → Bool
  | .dbSet (.usbNode _) => true
  | _ => false

/-- True on a persist of the USB-route key. -/
def isUsbRoutePersist : Event → Bool
  | .dbSet (.usbRoute _) => true
  | _ => false

/-- True on events that persist neither the USB-node key nor the USB-route
key. -/
def noNRPersist (e : Event) : Bool := !(isUsbNodePersist e || isUsbRoutePersist e)

/-- An environment in which every external call succeeds: one matching USB
device is found, and the pin controller's USB-mode computation is an
arbitrary fixed function. -/
def envAll : Env where
  sendOk := true
  trySendOk := true
  atxOk := true
  ledOk := true
  setPowerNodeOk := true
  clearUsbBootOk := true
  selectUsbOk := true
  setUsbBootOk := true
  setUsbRouteOk := true
  setUsbModePinOk := true
  usbModeF := fun _ _ _ => 0
  getSerialsOk := true
  serialCount := 1
  bootMsdOk := true
  devicePathOk := true
  devicePath := "/dev/sda"
  writeOk := true
  imgLen := 1024
  imgChecksum := 0
  checksumOk := true

/-- The config store state used by the concrete pipeline runs: the activated
mask is present (and zero), the USB keys were never written. -/
def db0 : Db := ⟨some 0, none, none, none⟩

/-- Claim C1: the pure reconciliation function `power_logic` equals the
reference definition given by the spec's steps 1-4 — `s &&& a` when
`m &&& a = 0`, and otherwise `((s &&& a) &&& ~(m &&& a)) ||| (v &&& (m &&& a))`
— and on the concrete scenario `a = 0b1001`, `s = 0b1100`, `v = m = 0b1111`
the result is `0b1001`. -/
theorem power_logic_eq_reconcile_spec :
    (∀ v m a s : Nat, power_logic v m a s = reconcile_spec v m a s) ∧
      power_logic 0b1111 0b1111 0b1001 0b1100 = 0b1001 := by
  constructor
  · intro v m a s
    unfold power_logic reconcile_spec
    by_cases h : m &&& a = 0 <;> simp [h]
  · decide

/-- Claim C2: a deactivated node's bit is never set in the result of
`power_logic`: for every 8-bit activated mask `a` and all inputs, the result
intersected with the complement of `a` is zero. -/
theorem power_logic_and_lnot_activated_eq_zero
    (v m a s : Nat) (ha : a < 256) :
    power_logic v m a s &&& lnot8 a = 0 := by
  have hbit : ∀ i, 8 ≤ i → a.testBit i = false := by
    intro i hi
    apply Nat.testBit_lt_two_pow
    calc a < 256 := ha
      _ = 2 ^ 8 := by norm_num
      _ ≤ 2 ^ i := Nat.pow_le_pow_right (by norm_num) hi
  have h255 : (255 : Nat) = 2 ^ 8 - 1 := by norm_num
  apply Nat.eq_of_testBit_eq
  intro i
  by_cases h : m &&& a = 0 <;>
    simp only [power_logic, lnot8, h, ne_eq, not_true_eq_false, not_false_eq_true,
      if_true, if_false, ite_true, ite_false, Nat.testBit_and, Nat.testBit_or,
      Nat.testBit_xor, h255, Nat.testBit_two_pow_sub_one, Nat.zero_testBit] <;>
    · by_cases hi : i < 8
      · cases hA : a.testBit i <;> simp [hA, hi]
      · have hA : a.testBit i = false := hbit i (by omega)
        simp [hA, hi]

/-- Claim C3: `need_atx_change` signals power-on (`some true`) exactly when
the old state is zero and the new state nonzero, power-off (`some false`)
exactly when the old state is nonzero and the new state zero, and no rail
change (`none`) exactly when both sides are zero or both are nonzero. -/
theorem need_atx_change_characterisation :
    ∀ c n : Nat,
      (need_atx_change c n = some true ↔ c = 0 ∧ 0 < n) ∧
      (need_atx_change c n = some false ↔ 0 < c ∧ n = 0) ∧
      (need_atx_change c n = none ↔ (c = 0 ∧ n = 0) ∨ (0 < c ∧ 0 < n)) := by
  intro c n
  unfold need_atx_change
  rcases Nat.eq_zero_or_pos c with hc | hc <;>
    rcases Nat.eq_zero_or_pos n with hn | hn
  · simp [hc, hn]
  · simp [hc, hn, hn.ne']
  · simp [hc, hn, hc.ne']
  · simp [hc, hn, hc.ne', hn.ne']

/-- Witness for Claim C2 at a concrete input. -/
theorem power_logic_and_lnot_activated_eq_zero_witness :
    (0b1001 : Nat) < 256 ∧ power_logic 0b1111 0b1111 0b1001 0b1100 &&& lnot8 0b1001 = 0 :=
  ⟨by decide, power_logic_and_lnot_activated_eq_zero 0b1111 0b1111 0b1001 0b1100 (by decide)⟩

/-- Bits of an 8-bit value above position 7 are clear. -/
theorem testBit_eq_false_of_lt_256 {a : Nat} (ha : a < 256) {i : Nat} (hi : 8 ≤ i) :
    a.testBit i = false := by
  apply Nat.testBit_lt_two_pow
  calc a < 256 := ha
    _ = 2 ^ 8 := by norm_num
    _ ≤ 2 ^ i := Nat.pow_le_pow_right (by norm_num) hi

/-- `power_logic` is idempotent in its `current_state` argument for 8-bit
activated masks. -/
theorem power_logic_idem (v m a s : Nat) (ha : a < 256) :
    power_logic v m a (power_logic v m a s) = power_logic v m a s := by
  by_cases h : m &&& a = 0
  · simp only [power_logic, h, ne_eq, not_true_eq_false, if_false, ite_false]
    rw [Nat.and_assoc, Nat.and_self]
  · have h255 : (255 : Nat) = 2 ^ 8 - 1 := by norm_num
    apply Nat.eq_of_testBit_eq
    intro i
    simp only [power_logic, lnot8, h, ne_eq, not_false_eq_true, if_true, ite_true,
      Nat.testBit_and, Nat.testBit_or, Nat.testBit_xor, h255,
      Nat.testBit_two_pow_sub_one]
    by_cases hi : i < 8
    · simp only [hi, decide_True, Bool.true_xor]
      cases s.testBit i <;> cases a.testBit i <;> cases m.testBit i <;>
        cases v.testBit i <;> decide
    · have hA : a.testBit i = false := testBit_eq_false_of_lt_256 ha (by omega)
      simp [hA, hi]

/-- Claim C4: when the per-node pin write fails inside `power_node` (after
the reconciled state differs from the current one and any required ATX rail
toggle went through), the error is returned and the in-memory power bitmask
is left unchanged at its previous value. -/
theorem power_node_pin_write_failure
    (env : Env) (v m : Nat) (db : Db) (power a : Nat)
    (hdb : db.activatedNodes = some a)
    (hneq : power_logic v m a power ≠ power)
    (hatx : need_atx_change power (power_logic v m a power) = none ∨
      (env.atxOk = true ∧ env.ledOk = true))
    (hpin : env.setPowerNodeOk = false) :
    (power_node env v m db power).res = Outcome.err PErr.powerPin ∧
      (power_node env v m db power).power = power := by
  cases hna : need_atx_change power (power_logic v m a power) with
  | none => simp [power_node, hdb, hneq, hna, hpin]
  | some isOn =>
    rcases hatx with hnone | ⟨hatxOk, hled⟩
    · rw [hna] at hnone
      exact absurd hnone (by simp)
    · simp [power_node, hdb, hneq, hna, hatxOk, hled, hpin]

/-- Witness for Claim C4 at a concrete input. -/
theorem power_node_pin_write_failure_witness :
    (power_node { envAll with setPowerNodeOk := false } 0b1111 0b1111
        (Db.mk (some 0b1111) none none none) 0).res = Outcome.err PErr.powerPin ∧
      (power_node { envAll with setPowerNodeOk := false } 0b1111 0b1111
        (Db.mk (some 0b1111) none none none) 0).power = 0 :=
  power_node_pin_write_failure _ 0b1111 0b1111 _ 0 0b1111 rfl (by decide)
    (Or.inr ⟨rfl, rfl⟩) rfl

/-- Claim C5: when the reconciled state equals the current in-memory state,
`power_node` returns success with no hardware effect and no state change;
consequently, when the hardware succeeds, a second `power_node` call with an
identical target performs no effects at all. -/
theorem power_node_short_circuit_and_idempotent :
    (∀ (env : Env) (v m : Nat) (db : Db) (power a : Nat),
       db.activatedNodes = some a →
       power_logic v m a power = power →
       power_node env v m db power = ⟨Outcome.ok (), db, power, []⟩) ∧
    (∀ (env : Env) (v m : Nat) (db : Db) (power a : Nat),
       db.activatedNodes = some a → a < 256 →
       env.atxOk = true → env.ledOk = true → env.setPowerNodeOk = true →
       (power_node env v m (power_node env v m db power).db
         (power_node env v m db power).power).events = []) := by
  constructor
  · intro env v m db power a hdb hfix
    simp [power_node, hdb, hfix]
  · intro env v m db power a hdb ha hatx hled hsp
    by_cases hfix : power_logic v m a power = power
    · simp [power_node, hdb, hfix]
    · cases hna : need_atx_change power (power_logic v m a power) <;>
        simp [power_node, hdb, hfix, hna, hatx, hled, hsp,
          power_logic_idem v m a power ha]

/-- Witness for Claim C5 at concrete inputs: an unchanged-target call is a
silent success, and a second identical call after a state-changing first
call performs no effects. -/
theorem power_node_short_circuit_and_idempotent_witness :
    power_node envAll 0b1111 0b1111 (Db.mk (some 0b1001) none none none) 0b1001 =
      ⟨Outcome.ok (), Db.mk (some 0b1001) none none none, 0b1001, []⟩ ∧
    (power_node envAll 0b1111 0b1111
      (power_node envAll 0b1111 0b1111 (Db.mk (some 0b1001) none none none) 0).db
      (power_node envAll 0b1111 0b1111 (Db.mk (some 0b1001) none none none) 0).power).events
        = [] :=
  ⟨power_node_short_circuit_and_idempotent.1 envAll 0b1111 0b1111 _ 0b1001 0b1001 rfl
      (by decide),
    power_node_short_circuit_and_idempotent.2 envAll 0b1111 0b1111 _ 0 0b1001 rfl
      (by decide) rfl rfl rfl⟩

/-- Claim C9: with an all-zero current power bitmask, `toggle_power_states`
resets activation regardless of the long-press flag: it persists `0b1111` as
the activated-nodes mask, and (when the hardware succeeds) requests power-on
for all four nodes — the ATX rail is switched on and the per-node pin write
takes the bitmask from `0` to `0b1111`. -/
theorem toggle_power_states_all_zero_resets
    (env : Env) (db : Db) (longPress : Bool)
    (hatx : env.atxOk = true) (hled : env.ledOk = true)
    (hsp : env.setPowerNodeOk = true) :
    (toggle_power_states env longPress db 0).db.activatedNodes = some 0b1111 ∧
    (toggle_power_states env longPress db 0).power = 0b1111 ∧
    (toggle_power_states env longPress db 0).res = Outcome.ok () ∧
    (toggle_power_states env longPress db 0).events =
      [Event.dbSet (DbWrite.activatedNodes 0b1111), Event.pinSetAtxPower true,
       Event.ledWrite true, Event.pinSetPowerNode 0 0b1111] := by
  have h1 : power_logic (lnot8 0) 0b1111 0b1111 0 = 0b1111 := by decide
  have h2 : need_atx_change 0 0b1111 = some true := by decide
  simp [toggle_power_states, power_node, pbind, h1, h2, hatx, hled, hsp]

/-- Witness for Claim C9 at a concrete input. -/
theorem toggle_power_states_all_zero_resets_witness :
    (toggle_power_states envAll true (Db.mk none none none none) 0).db.activatedNodes
        = some 0b1111 ∧
    (toggle_power_states envAll true (Db.mk none none none none) 0).power = 0b1111 ∧
    (toggle_power_states envAll true (Db.mk none none none none) 0).res = Outcome.ok () ∧
    (toggle_power_states envAll true (Db.mk none none none none) 0).events =
      [Event.dbSet (DbWrite.activatedNodes 0b1111), Event.pinSetAtxPower true,
       Event.ledWrite true, Event.pinSetPowerNode 0 0b1111] :=
  toggle_power_states_all_zero_resets envAll _ true rfl rfl rfl

/-- Claim C10: the public `usb_mode` operation forces the route to the
external USB-A port and persists that route regardless of the previously
persisted one, and it sets the node's USB-boot strap pins when the requested
mode is `Device` and clears them when it is `Host`. -/
theorem usb_mode_forces_usba_and_straps
    (env : Env) (mode : UsbMode) (node : NodeId) (db : Db) (power : Nat)
    (hsel : env.selectUsbOk = true) (hroute : env.setUsbRouteOk = true)
    (hmode : env.setUsbModePinOk = true) (hboot : env.setUsbBootOk = true)
    (hclear : env.clearUsbBootOk = true) :
    (usb_mode env mode node db power).db.usbRoute = some UsbRoute.UsbA ∧
    Event.pinSetUsbRoute UsbRoute.UsbA ∈ (usb_mode env mode node db power).events ∧
    Event.dbSet (DbWrite.usbRoute UsbRoute.UsbA) ∈ (usb_mode env mode node db power).events ∧
    (mode = UsbMode.Device →
      Event.pinSetUsbBoot node ∈ (usb_mode env mode node db power).events ∧
      Event.pinClearUsbBoot ∉ (usb_mode env mode node db power).events) ∧
    (mode = UsbMode.Host →
      Event.pinClearUsbBoot ∈ (usb_mode env mode node db power).events ∧
      Event.pinSetUsbBoot node ∉ (usb_mode env mode node db power).events) := by
  cases mode <;>
    simp [usb_mode, set_usb_mode, extOp, pbind, hsel, hroute, hmode, hboot, hclear]

/-- Sequencing preserves a per-event predicate over the trace. -/
theorem pbind_events_all {α β : Type} (p : Event → Bool) (x : PRes α)
    (f : α → Db → Nat → PRes β) (hx : x.events.all p = true)
    (hf : ∀ a db pw, ((f a db pw).events.all p) = true) :
    ((pbind x f).events.all p) = true := by
  unfold pbind
  cases hres : x.res <;> simp [List.all_append, hx, hf]

/-- Every event of an `extOp` call satisfies `p` when its effect does. -/
theorem extOp_events_all (p : Event → Bool) (success : Bool) (e : PErr) (ev : Event)
    (db : Db) (power : Nat) (h : p ev = true) :
    ((extOp success e ev db power).events.all p) = true := by
  unfold extOp
  split <;> simp [h]

/-- Every event of a `sendP` call satisfies `p` when progress sends do. -/
theorem sendP_events_all (p : Event → Bool) (env : Env) (msg : String)
    (status : FlashStatus) (db : Db) (power : Nat)
    (h : p (.progressSend msg status) = true) :
    ((sendP env msg status db power).events.all p) = true := by
  unfold sendP
  split <;> simp [h]

/-- Every event of a `sleepP` call satisfies `p` when settle delays do. -/
theorem sleepP_events_all (p : Event → Bool) (ms : Nat) (db : Db) (power : Nat)
    (h : p (.sleepMs ms) = true) :
    ((sleepP ms db power).events.all p) = true := by
  simp [sleepP, h]

/-- Every event of a `getSerialsP` call satisfies `p` when the enumeration
event does. -/
theorem getSerialsP_events_all (p : Event → Bool) (env : Env) (db : Db) (power : Nat)
    (h : p .usbGetSerials = true) :
    ((getSerialsP env db power).events.all p) = true := by
  unfold getSerialsP
  split <;> simp [h]

/-- Every event of a `verifyOneP` call satisfies `p` when non-blocking sends
do. -/
theorem verifyOneP_events_all (p : Event → Bool) (env : Env) (n : Nat) (db : Db)
    (power : Nat) (h : ∀ st, p (.progressTrySend st) = true) :
    ((verifyOneP env n db power).events.all p) = true := by
  unfold verifyOneP
  split
  · simp
  · split <;> split <;> simp [h]

/-- Every event of a `getDevicePathP` call satisfies `p` when the lookup
event does. -/
theorem getDevicePathP_events_all (p : Event → Bool) (env : Env) (db : Db) (power : Nat)
    (h : p .usbGetDevicePath = true) :
    ((getDevicePathP env db power).events.all p) = true := by
  unfold getDevicePathP
  split <;> simp [h]

/-- Every event of a `power_node` call is an ATX toggle, an LED write or a
per-node pin write. -/
theorem power_node_events_all (p : Event → Bool) (env : Env) (nodes mask : Nat)
    (db : Db) (power : Nat)
    (ha : ∀ b, p (.pinSetAtxPower b) = true) (hl : ∀ b, p (.ledWrite b) = true)
    (hp : ∀ o n, p (.pinSetPowerNode o n) = true) :
    ((power_node env nodes mask db power).events.all p) = true := by
  cases h : db.activatedNodes with
  | none => simp [power_node, h]
  | some a =>
    simp only [power_node, h]
    repeat' split
    all_goals simp [ha, hl, hp]

/-- Every event of an `activate_slot` call is an activated-mask persist or a
`power_node` effect. -/
theorem activate_slot_events_all (p : Event → Bool) (env : Env) (node : NodeId)
    (turnOn : Bool) (db : Db) (power : Nat)
    (hdbw : ∀ v, p (.dbSet (.activatedNodes v)) = true)
    (ha : ∀ b, p (.pinSetAtxPower b) = true) (hl : ∀ b, p (.ledWrite b) = true)
    (hp : ∀ o n, p (.pinSetPowerNode o n) = true) :
    ((activate_slot env node turnOn db power).events.all p) = true := by
  unfold activate_slot
  split
  · simp
  · cases h : db.activatedNodes with
    | none => simp [h]
    | some st =>
      simp only [h]
      apply pbind_events_all
      · simp [hdbw]
      · intro _ db pw
        exact power_node_events_all p env _ _ db pw ha hl hp

/-- Every event of a `set_usb_mode` call is the pin mode change or the
usb-mode persist. -/
theorem set_usb_mode_events_all (p : Event → Bool) (env : Env) (node : NodeId)
    (mode : UsbMode) (db : Db) (power : Nat)
    (hpin : ∀ n m v, p (.pinSetUsbMode n m v) = true)
    (hdbm : ∀ v, p (.dbSet (.usbMode v)) = true) :
    ((set_usb_mode env node mode db power).events.all p) = true := by
  unfold set_usb_mode
  split <;> simp [hpin, hdbm]

/-- Classification of every event `set_node_in_msd` can perform: given that
`p` holds on progress sends, non-blocking sends, activated-mask and usb-mode
persists, power and USB pin operations, USB helper calls and settle delays,
every event of the run satisfies `p`. No usb-node or usb-route persist
appears among the premises: the function performs none. -/
theorem set_node_in_msd_events_all (p : Event → Bool) (env : Env) (node : NodeId)
    (router : UsbRoute) (db : Db) (power : Nat)
    (hsend : ∀ msg st, p (.progressSend msg st) = true)
    (htry : ∀ st, p (.progressTrySend st) = true)
    (hdba : ∀ v, p (.dbSet (.activatedNodes v)) = true)
    (hdbm : ∀ v, p (.dbSet (.usbMode v)) = true)
    (hatx : ∀ b, p (.pinSetAtxPower b) = true)
    (hled : ∀ b, p (.ledWrite b) = true)
    (hpow : ∀ o n, p (.pinSetPowerNode o n) = true)
    (hclear : p .pinClearUsbBoot = true)
    (hsel : ∀ n, p (.pinSelectUsb n) = true)
    (hboot : ∀ n, p (.pinSetUsbBoot n) = true)
    (hroute : ∀ r, p (.pinSetUsbRoute r) = true)
    (hmode : ∀ n m v, p (.pinSetUsbMode n m v) = true)
    (hser : p .usbGetSerials = true)
    (hmsd : ∀ n, p (.usbBootMsd n) = true)
    (hpath : p .usbGetDevicePath = true)
    (hsleep : ∀ ms, p (.sleepMs ms) = true) :
    ((set_node_in_msd env node router db power).events.all p) = true := by
  unfold set_node_in_msd
  refine pbind_events_all p _ _ (sendP_events_all p _ _ _ _ _ (hsend _ _))
    (fun _ db pw => ?_)
  refine pbind_events_all p _ _
    (activate_slot_events_all p _ _ _ _ _ hdba hatx hled hpow) (fun _ db pw => ?_)
  refine pbind_events_all p _ _ (extOp_events_all p _ _ _ _ _ hclear) (fun _ db pw => ?_)
  refine pbind_events_all p _ _ (sleepP_events_all p _ _ _ (hsleep _)) (fun _ db pw => ?_)
  refine pbind_events_all p _ _ (extOp_events_all p _ _ _ _ _ (hsel _)) (fun _ db pw => ?_)
  refine pbind_events_all p _ _ (extOp_events_all p _ _ _ _ _ (hboot _)) (fun _ db pw => ?_)
  refine pbind_events_all p _ _ (extOp_events_all p _ _ _ _ _ (hroute _)) (fun _ db pw => ?_)
  refine pbind_events_all p _ _ (set_usb_mode_events_all p _ _ _ _ _ hmode hdbm)
    (fun _ db pw => ?_)
  refine pbind_events_all p _ _ (sendP_events_all p _ _ _ _ _ (hsend _ _))
    (fun _ db pw => ?_)
  refine pbind_events_all p _ _
    (activate_slot_events_all p _ _ _ _ _ hdba hatx hled hpow) (fun _ db pw => ?_)
  refine pbind_events_all p _ _ (sleepP_events_all p _ _ _ (hsleep _)) (fun _ db pw => ?_)
  refine pbind_events_all p _ _ (sendP_events_all p _ _ _ _ _ (hsend _ _))
    (fun _ db pw => ?_)
  refine pbind_events_all p _ _ (getSerialsP_events_all p _ _ _ hser) (fun _ db pw => ?_)
  refine pbind_events_all p _ _ (verifyOneP_events_all p _ _ _ _ htry) (fun _ db pw => ?_)
  refine pbind_events_all p _ _ (sendP_events_all p _ _ _ _ _ (hsend _ _))
    (fun _ db pw => ?_)
  refine pbind_events_all p _ _ (extOp_events_all p _ _ _ _ _ (hmsd _)) (fun _ db pw => ?_)
  refine pbind_events_all p _ _ (sleepP_events_all p _ _ _ (hsleep _)) (fun _ db pw => ?_)
  refine pbind_events_all p _ _ (sendP_events_all p _ _ _ _ _ (hsend _ _))
    (fun _ db pw => ?_)
  exact getDevicePathP_events_all p _ _ _ hpath

/-- Claim C6 counterexample: in a fully successful concrete run of
`set_node_in_msd`, the USB multiplexer is re-selected and the USB route is
set on the pin controller, yet no persist of the usb-node or usb-route key
ever happens — the settings are not persisted as they are applied. -/
theorem set_node_in_msd_persist_counterexample :
    (Event.pinSelectUsb NodeId.Node1 ∈
      (set_node_in_msd envAll NodeId.Node1 UsbRoute.BMC db0 0).events) ∧
    (Event.pinSetUsbRoute UsbRoute.BMC ∈
      (set_node_in_msd envAll NodeId.Node1 UsbRoute.BMC db0 0).events) ∧
    ((set_node_in_msd envAll NodeId.Node1 UsbRoute.BMC db0 0).events.any
      isUsbNodePersist) = false ∧
    ((set_node_in_msd envAll NodeId.Node1 UsbRoute.BMC db0 0).events.any
      isUsbRoutePersist) = false := by
  decide

/-- Claim C6 (amended): during `set_node_in_msd` only the node's USB mode
change is persisted to the config store — in every run no persist of the
usb-node or usb-route key occurs, while the USB-mode pin change (when it
succeeds) is immediately followed by the persist of the returned mode
mask. -/
theorem set_node_in_msd_persists_only_usb_mode :
    (∀ (env : Env) (node : NodeId) (router : UsbRoute) (db : Db) (power : Nat),
      ((set_node_in_msd env node router db power).events.all noNRPersist) = true) ∧
    (∀ (env : Env) (node : NodeId) (mode : UsbMode) (db : Db) (power : Nat),
      env.setUsbModePinOk = true →
      (set_usb_mode env node mode db power).events =
        [Event.pinSetUsbMode node mode (db.usbMode.getD 0b1111),
         Event.dbSet (DbWrite.usbMode (env.usbModeF node mode (db.usbMode.getD 0b1111)))] ∧
      (set_usb_mode env node mode db power).db.usbMode =
        some (env.usbModeF node mode (db.usbMode.getD 0b1111))) := by
  constructor
  · intro env node router db power
    exact set_node_in_msd_events_all noNRPersist env node router db power
      (fun _ _ => rfl) (fun _ => rfl) (fun _ => rfl) (fun _ => rfl) (fun _ => rfl)
      (fun _ => rfl) (fun _ _ => rfl) rfl (fun _ => rfl) (fun _ => rfl) (fun _ => rfl)
      (fun _ _ _ => rfl) rfl (fun _ => rfl) rfl (fun _ => rfl)
  · intro env node mode db power h
    simp [set_usb_mode, h]

/-- Witness for Claim C6 (amended) at concrete inputs. -/
theorem set_node_in_msd_persists_only_usb_mode_witness :
    ((set_node_in_msd envAll NodeId.Node1 UsbRoute.BMC db0 0).events.all
      noNRPersist) = true ∧
    ((set_usb_mode envAll NodeId.Node1 UsbMode.Device db0 0).events =
      [Event.pinSetUsbMode NodeId.Node1 UsbMode.Device 0b1111,
       Event.dbSet (DbWrite.usbMode 0)] ∧
     (set_usb_mode envAll NodeId.Node1 UsbMode.Device db0 0).db.usbMode = some 0) :=
  ⟨set_node_in_msd_persists_only_usb_mode.1 envAll NodeId.Node1 UsbRoute.BMC db0 0,
   set_node_in_msd_persists_only_usb_mode.2 envAll NodeId.Node1 UsbMode.Device db0 0 rfl⟩

/-- Witness for Claim C10 at a concrete input. -/
theorem usb_mode_forces_usba_and_straps_witness :
    (usb_mode envAll UsbMode.Device NodeId.Node1
        (Db.mk (some 0) (some NodeId.Node2) (some UsbRoute.BMC) (some 0)) 0).db.usbRoute
      = some UsbRoute.UsbA ∧
    Event.pinSetUsbRoute UsbRoute.UsbA ∈
      (usb_mode envAll UsbMode.Device NodeId.Node1
        (Db.mk (some 0) (some NodeId.Node2) (some UsbRoute.BMC) (some 0)) 0).events ∧
    Event.dbSet (DbWrite.usbRoute UsbRoute.UsbA) ∈
      (usb_mode envAll UsbMode.Device NodeId.Node1
        (Db.mk (some 0) (some NodeId.Node2) (some UsbRoute.BMC) (some 0)) 0).events ∧
    (UsbMode.Device = UsbMode.Device →
      Event.pinSetUsbBoot NodeId.Node1 ∈
        (usb_mode envAll UsbMode.Device NodeId.Node1
          (Db.mk (some 0) (some NodeId.Node2) (some UsbRoute.BMC) (some 0)) 0).events ∧
      Event.pinClearUsbBoot ∉
        (usb_mode envAll UsbMode.Device NodeId.Node1
          (Db.mk (some 0) (some NodeId.Node2) (some UsbRoute.BMC) (some 0)) 0).events) ∧
    (UsbMode.Device = UsbMode.Host →
      Event.pinClearUsbBoot ∈
        (usb_mode envAll UsbMode.Device NodeId.Node1
          (Db.mk (some 0) (some NodeId.Node2) (some UsbRoute.BMC) (some 0)) 0).events ∧
      Event.pinSetUsbBoot NodeId.Node1 ∉
        (usb_mode envAll UsbMode.Device NodeId.Node1
          (Db.mk (some 0) (some NodeId.Node2) (some UsbRoute.BMC) (some 0)) 0).events) :=
  usb_mode_forces_usba_and_straps envAll UsbMode.Device NodeId.Node1 _ 0
    rfl rfl rfl rfl rfl

/-- Claim C7 counterexample: when the boot-to-mass-storage handshake fails,
the pipeline aborts and returns the error, but no `Error` status is ever
published on the progress channel — contradicting the claim that every
step's failure publishes one. -/
theorem flash_pipeline_error_publish_counterexample :
    ((set_node_in_msd { envAll with bootMsdOk := false } NodeId.Node1 UsbRoute.BMC
        db0 0).res = Outcome.err PErr.bootMsd) ∧
    (((set_node_in_msd { envAll with bootMsdOk := false } NodeId.Node1 UsbRoute.BMC
        db0 0).events.any isErrorPublish) = false) := by
  decide

/-- Claim C7 (amended): for every step of the flashing pipeline, a failure
of that step aborts the remaining pipeline and returns that step's error to
the caller, but an `Error` status is published on the progress channel only
when the USB-device-uniqueness check fails; every other step's failure
returns without publishing. Each conjunct exercises one step's failure (in
pipeline order) on a concrete run, checking the returned error, whether an
`Error` status was published, and that an effect belonging to a later step
never happened. -/
theorem flash_pipeline_step_failure_behaviour :
    (((set_node_in_msd { envAll with sendOk := false } NodeId.Node1 UsbRoute.BMC
        db0 0).res = Outcome.err PErr.send) ∧
     ((set_node_in_msd { envAll with sendOk := false } NodeId.Node1 UsbRoute.BMC
        db0 0).events = [])) ∧
    (((set_node_in_msd envAll NodeId.Node1 UsbRoute.BMC (Db.mk none none none none)
        0).res = Outcome.err PErr.dbGet) ∧
     (((set_node_in_msd envAll NodeId.Node1 UsbRoute.BMC (Db.mk none none none none)
        0).events.any isErrorPublish) = false) ∧
     (Event.pinClearUsbBoot ∉
       (set_node_in_msd envAll NodeId.Node1 UsbRoute.BMC (Db.mk none none none none)
        0).events)) ∧
    (((set_node_in_msd { envAll with clearUsbBootOk := false } NodeId.Node1 UsbRoute.BMC
        db0 0).res = Outcome.err PErr.clearUsbBoot) ∧
     (((set_node_in_msd { envAll with clearUsbBootOk := false } NodeId.Node1 UsbRoute.BMC
        db0 0).events.any isErrorPublish) = false) ∧
     (Event.pinSelectUsb NodeId.Node1 ∉
       (set_node_in_msd { envAll with clearUsbBootOk := false } NodeId.Node1 UsbRoute.BMC
        db0 0).events)) ∧
    (((set_node_in_msd { envAll with selectUsbOk := false } NodeId.Node1 UsbRoute.BMC
        db0 0).res = Outcome.err PErr.selectUsb) ∧
     (((set_node_in_msd { envAll with selectUsbOk := false } NodeId.Node1 UsbRoute.BMC
        db0 0).events.any isErrorPublish) = false) ∧
     (Event.pinSetUsbBoot NodeId.Node1 ∉
       (set_node_in_msd { envAll with selectUsbOk := false } NodeId.Node1 UsbRoute.BMC
        db0 0).events)) ∧
    (((set_node_in_msd { envAll with setUsbBootOk := false } NodeId.Node1 UsbRoute.BMC
        db0 0).res = Outcome.err PErr.setUsbBoot) ∧
     (((set_node_in_msd { envAll with setUsbBootOk := false } NodeId.Node1 UsbRoute.BMC
        db0 0).events.any isErrorPublish) = false) ∧
     (Event.pinSetUsbRoute UsbRoute.BMC ∉
       (set_node_in_msd { envAll with setUsbBootOk := false } NodeId.Node1 UsbRoute.BMC
        db0 0).events)) ∧
    (((set_node_in_msd { envAll with setUsbRouteOk := false } NodeId.Node1 UsbRoute.BMC
        db0 0).res = Outcome.err PErr.setUsbRoute) ∧
     (((set_node_in_msd { envAll with setUsbRouteOk := false } NodeId.Node1 UsbRoute.BMC
        db0 0).events.any isErrorPublish) = false) ∧
     (Event.pinSetUsbMode NodeId.Node1 UsbMode.Device 0b1111 ∉
       (set_node_in_msd { envAll with setUsbRouteOk := false } NodeId.Node1 UsbRoute.BMC
        db0 0).events)) ∧
    (((set_node_in_msd { envAll with setUsbModePinOk := false } NodeId.Node1 UsbRoute.BMC
        db0 0).res = Outcome.err PErr.setUsbModePin) ∧
     (((set_node_in_msd { envAll with setUsbModePinOk := false } NodeId.Node1 UsbRoute.BMC
        db0 0).events.any isErrorPublish) = false) ∧
     (Event.usbGetSerials ∉
       (set_node_in_msd { envAll with setUsbModePinOk := false } NodeId.Node1 UsbRoute.BMC
        db0 0).events)) ∧
    (((set_node_in_msd { envAll with setPowerNodeOk := false } NodeId.Node1 UsbRoute.BMC
        db0 0).res = Outcome.err PErr.powerPin) ∧
     (((set_node_in_msd { envAll with setPowerNodeOk := false } NodeId.Node1 UsbRoute.BMC
        db0 0).events.any isErrorPublish) = false) ∧
     (Event.usbGetSerials ∉
       (set_node_in_msd { envAll with setPowerNodeOk := false } NodeId.Node1 UsbRoute.BMC
        db0 0).events)) ∧
    (((set_node_in_msd { envAll with getSerialsOk := false } NodeId.Node1 UsbRoute.BMC
        db0 0).res = Outcome.err PErr.getSerials) ∧
     (((set_node_in_msd { envAll with getSerialsOk := false } NodeId.Node1 UsbRoute.BMC
        db0 0).events.any isErrorPublish) = false) ∧
     (Event.usbBootMsd NodeId.Node1 ∉
       (set_node_in_msd { envAll with getSerialsOk := false } NodeId.Node1 UsbRoute.BMC
        db0 0).events)) ∧
    (((set_node_in_msd { envAll with serialCount := 0 } NodeId.Node1 UsbRoute.BMC
        db0 0).res = Outcome.err PErr.deviceNotFound) ∧
     (((set_node_in_msd { envAll with serialCount := 0 } NodeId.Node1 UsbRoute.BMC
        db0 0).events.any isErrorPublish) = true) ∧
     (Event.usbBootMsd NodeId.Node1 ∉
       (set_node_in_msd { envAll with serialCount := 0 } NodeId.Node1 UsbRoute.BMC
        db0 0).events)) ∧
    (((set_node_in_msd { envAll with serialCount := 2 } NodeId.Node1 UsbRoute.BMC
        db0 0).res = Outcome.err PErr.deviceAmbiguous) ∧
     (((set_node_in_msd { envAll with serialCount := 2 } NodeId.Node1 UsbRoute.BMC
        db0 0).events.any isErrorPublish) = true) ∧
     (Event.usbBootMsd NodeId.Node1 ∉
       (set_node_in_msd { envAll with serialCount := 2 } NodeId.Node1 UsbRoute.BMC
        db0 0).events)) ∧
    (((set_node_in_msd { envAll with bootMsdOk := false } NodeId.Node1 UsbRoute.BMC
        db0 0).res = Outcome.err PErr.bootMsd) ∧
     (Event.usbGetDevicePath ∉
       (set_node_in_msd { envAll with bootMsdOk := false } NodeId.Node1 UsbRoute.BMC
        db0 0).events)) ∧
    (((set_node_in_msd { envAll with devicePathOk := false } NodeId.Node1 UsbRoute.BMC
        db0 0).res = Outcome.err PErr.devicePath) ∧
     (((set_node_in_msd { envAll with devicePathOk := false } NodeId.Node1 UsbRoute.BMC
        db0 0).events.any isErrorPublish) = false)) ∧
    (((flash_node { envAll with writeOk := false } NodeId.Node1 ("image.img") db0
        0).res = Outcome.err PErr.writeImage) ∧
     (((flash_node { envAll with writeOk := false } NodeId.Node1 ("image.img") db0
        0).events.any isErrorPublish) = false) ∧
     (Event.usbVerifyChecksum ∉
       (flash_node { envAll with writeOk := false } NodeId.Node1 ("image.img") db0
        0).events)) ∧
    (((flash_node { envAll with checksumOk := false } NodeId.Node1 ("image.img") db0
        0).res = Outcome.err PErr.checksum) ∧
     (((flash_node { envAll with checksumOk := false } NodeId.Node1 ("image.img") db0
        0).events.any isErrorPublish) = false) ∧
     (Event.dbSet (DbWrite.usbNode NodeId.Node1) ∉
       (flash_node { envAll with checksumOk := false } NodeId.Node1 ("image.img") db0
        0).events)) ∧
    ((flash_node envAll NodeId.Node1 ("image.img") db0 0).res = Outcome.ok ()) := by
  repeat' apply And.intro
  all_goals decide

/-- Claim C8 counterexample: with zero matching USB devices and a full
progress channel, the `unwrap` on the failing `try_send` panics: the
pipeline does not return the original discovery error (or any error) to its
caller. -/
theorem try_send_failure_panics_counterexample :
    ((set_node_in_msd { envAll with serialCount := 0, trySendOk := false } NodeId.Node1
        UsbRoute.BMC db0 0).res = Outcome.panicked) ∧
    ((set_node_in_msd { envAll with serialCount := 0, trySendOk := false } NodeId.Node1
        UsbRoute.BMC db0 0).res ≠ Outcome.err PErr.deviceNotFound) := by
  decide

/-- Claim C8 (amended): when the device-uniqueness check fails, the outcome
depends on the non-blocking send: if `try_send` succeeds the original
discovery error is returned, but if `try_send` fails the `unwrap` panics
instead of returning the original error — the failure is not best-effort. -/
theorem verify_step_try_send_behaviour (b : Bool) (count : Nat) (h : count ≠ 1) :
    (set_node_in_msd { envAll with trySendOk := b, serialCount := count } NodeId.Node1
        UsbRoute.BMC db0 0).res =
      (if b then
        Outcome.err (if count = 0 then PErr.deviceNotFound else PErr.deviceAmbiguous)
       else Outcome.panicked) := by
  cases b <;> by_cases h0 : count = 0 <;>
    simp [set_node_in_msd, pbind, sendP, extOp, sleepP, getSerialsP, verifyOneP,
      getDevicePathP, set_usb_mode, activate_slot, power_node, power_logic,
      need_atx_change, lnot8, envAll, db0, NodeId.to_bitfield, NodeId.toNat,
      h, h0]

/-- Witness for Claim C8 (amended) at a concrete input. -/
theorem verify_step_try_send_behaviour_witness :
    (0 : Nat) ≠ 1 ∧
    (set_node_in_msd { envAll with trySendOk := false, serialCount := 0 } NodeId.Node1
        UsbRoute.BMC db0 0).res = Outcome.panicked :=
  ⟨by decide, verify_step_try_send_behaviour false 0 (by decide)⟩

end Bmc
